import Mathlib

/-!
Shallow embedding of `src/homework.py`: a workout-statistics calculator with
three activity classes (`Running`, `SportsWalking`, `Swimming`) deriving from a
base class `Training`, a message record `InfoMessage` with a fixed formatted
template, and a dispatcher `read_package` mapping short activity codes to
class constructors.

Modelling conventions:
* Python numbers (both `int` and `float` inputs) are modelled as rationals `ℚ`;
  all the arithmetic in the source is +, -, *, /, `**2.0` and `//`, which is
  exact over `ℚ`.
* Python `/` raises `ZeroDivisionError` on a zero divisor; it is modelled by
  `pydiv : ℚ → ℚ → Option ℚ` returning `none` exactly on a zero divisor.
  Likewise float floor division `//` is `pyfloordiv`, flooring toward `-∞`
  as Python does.
* Methods that can hit a division are `Option`-valued and propagate failure
  (an uncaught Python exception aborts the computation with no result).
* The dict lookup failure (`KeyError`) in `read_package` and the constructor
  arity failure (`TypeError`) are modelled by the spec's error taxonomy names
  `UnknownActivityType` and `InvalidReadingData` respectively.
-/

/-- Python true division on floats: raises on a zero divisor. -/
def pydiv (x y : ℚ) : Option ℚ :=
  if y = 0 then none else some (x / y)

/-- Python floor division `//` on floats: floor toward `-∞`, raises on a zero
divisor. -/
def pyfloordiv (x y : ℚ) : Option ℚ :=
  if y = 0 then none else some ((Int.floor (x / y) : ℤ) : ℚ)

/-- Dataclass `InfoMessage`: training_type, duration, distance, speed,
calories. -/
structure InfoMessage where
  training_type : String
  duration : ℚ
  distance : ℚ
  speed : ℚ
  calories : ℚ
deriving DecidableEq

/-- Base class `Training`: fields set by `__init__` (action, duration,
weight). -/
structure Training where
  action : ℚ
  duration : ℚ
  weight : ℚ
deriving DecidableEq

namespace Training

/-- Class attribute `LEN_STEP = 0.65` of the base class. -/
def LEN_STEP : ℚ := 65 / 100

/-- Class attribute `M_IN_KM = 1000`. -/
def M_IN_KM : ℚ := 1000

/-- Class attribute `MIN_IN_HOUR = 60`. -/
def MIN_IN_HOUR : ℚ := 60

/-- Method `Training.get_distance`: `self.action * self.LEN_STEP / self.M_IN_KM`.
`self.LEN_STEP` is dynamically dispatched (Swimming overrides it), so it is a
parameter here; each class passes its own value. -/
def get_distance (LEN_STEP : ℚ) (t : Training) : ℚ :=
  t.action * LEN_STEP / M_IN_KM

/-- Method `Training.get_mean_speed`: `self.get_distance() / self.duration`. -/
def get_mean_speed (LEN_STEP : ℚ) (t : Training) : Option ℚ :=
  pydiv (t.get_distance LEN_STEP) t.duration

end Training

/-- Subclass `Running` adds no fields. -/
structure Running extends Training
deriving DecidableEq

namespace Running

/-- Class attribute `coeff_cal_1 = 18.0`. -/
def coeff_cal_1 : ℚ := 18

/-- Class attribute `coeff_cal_2 = 20.0`. -/
def coeff_cal_2 : ℚ := 20

/-- Inherited `get_distance` with the base `LEN_STEP = 0.65`. -/
def get_distance (t : Running) : ℚ :=
  t.toTraining.get_distance Training.LEN_STEP

/-- Inherited `get_mean_speed`. -/
def get_mean_speed (t : Running) : Option ℚ :=
  t.toTraining.get_mean_speed Training.LEN_STEP

/-- Method `Running.get_spent_calories`:
`(18 * mean_speed - 20) * weight / M_IN_KM * (duration * MIN_IN_HOUR)`. -/
def get_spent_calories (t : Running) : Option ℚ := do
  let mean_speed ← t.get_mean_speed
  let minutes := t.duration * Training.MIN_IN_HOUR
  let calories_per_kilo := coeff_cal_1 * mean_speed - coeff_cal_2
  pure (calories_per_kilo * t.weight / Training.M_IN_KM * minutes)

/-- Base-class method `show_training_info`: record the class name
`"Running"` and the four computed quantities. -/
def show_training_info (t : Running) : Option InfoMessage := do
  let duration := t.duration
  let distance := t.get_distance
  let speed ← t.get_mean_speed
  let calories ← t.get_spent_calories
  pure ⟨"Running", duration, distance, speed, calories⟩

end Running

/-- Subclass `SportsWalking` adds the field `height`. -/
structure SportsWalking extends Training where
  height : ℚ
deriving DecidableEq

namespace SportsWalking

/-- Class attribute `coeff_1 = 0.035`. -/
def coeff_1 : ℚ := 35 / 1000

/-- Class attribute `coeff_2 = 0.029`. -/
def coeff_2 : ℚ := 29 / 1000

/-- Class attribute `speed_pow = 2.0`; float power with the integral exponent
`2.0` is exact squaring, modelled as the natural exponent `2`. -/
def speed_pow : ℕ := 2

/-- Inherited `get_distance` with the base `LEN_STEP = 0.65`. -/
def get_distance (t : SportsWalking) : ℚ :=
  t.toTraining.get_distance Training.LEN_STEP

/-- Inherited `get_mean_speed`. -/
def get_mean_speed (t : SportsWalking) : Option ℚ :=
  t.toTraining.get_mean_speed Training.LEN_STEP

/-- Method `SportsWalking.get_spent_calories`:
`(weight * (0.035 + (mean_speed ** 2.0 // height) * 0.029)) * minutes`. -/
def get_spent_calories (t : SportsWalking) : Option ℚ := do
  let minutes := t.duration * Training.MIN_IN_HOUR
  let mean_speed ← t.get_mean_speed
  let speed_to_height ← pyfloordiv (mean_speed ^ speed_pow) t.height
  let cal_by_kilo := coeff_1 + speed_to_height * coeff_2
  let by_minutes := t.weight * cal_by_kilo
  pure (by_minutes * minutes)

/-- Method `show_training_info` with the class name `"SportsWalking"`. -/
def show_training_info (t : SportsWalking) : Option InfoMessage := do
  let duration := t.duration
  let distance := t.get_distance
  let speed ← t.get_mean_speed
  let calories ← t.get_spent_calories
  pure ⟨"SportsWalking", duration, distance, speed, calories⟩

end SportsWalking

/-- Subclass `Swimming` adds fields `length_pool`, `count_pool` and overrides
`LEN_STEP` and `get_mean_speed`. -/
structure Swimming extends Training where
  length_pool : ℚ
  count_pool : ℚ
deriving DecidableEq

namespace Swimming

/-- Overridden class attribute `LEN_STEP = 1.38`. -/
def LEN_STEP : ℚ := 138 / 100

/-- Class attribute `ADD_COEFF = 1.1`. -/
def ADD_COEFF : ℚ := 11 / 10

/-- Class attribute `SPEED_COEFF = 2.0`. -/
def SPEED_COEFF : ℚ := 2

/-- Inherited `get_distance`, but with the overridden `LEN_STEP = 1.38`. -/
def get_distance (t : Swimming) : ℚ :=
  t.toTraining.get_distance LEN_STEP

/-- Overridden method `Swimming.get_mean_speed`:
`(length_pool * count_pool) / M_IN_KM / duration`. -/
def get_mean_speed (t : Swimming) : Option ℚ :=
  let total_length := t.length_pool * t.count_pool
  pydiv (total_length / Training.M_IN_KM) t.duration

/-- Method `Swimming.get_spent_calories`:
`(mean_speed + ADD_COEFF) * SPEED_COEFF * weight`. -/
def get_spent_calories (t : Swimming) : Option ℚ := do
  let mean_speed ← t.get_mean_speed
  pure ((mean_speed + ADD_COEFF) * SPEED_COEFF * t.weight)

/-- Method `show_training_info` with the class name `"Swimming"`. -/
def show_training_info (t : Swimming) : Option InfoMessage := do
  let duration := t.duration
  let distance := t.get_distance
  let speed ← t.get_mean_speed
  let calories ← t.get_spent_calories
  pure ⟨"Swimming", duration, distance, speed, calories⟩

end Swimming

/-- Error taxonomy of the spec for the two failure modes of `read_package`:
`KeyError` on an unknown code, `TypeError` on a constructor arity mismatch. -/
inductive DispatchError where
  | UnknownActivityType : DispatchError
  | InvalidReadingData : DispatchError
deriving DecidableEq

/-- A constructed training object: one of the three classes the dispatcher's
`traning_classes_map` can produce. -/
inductive TrainingObj where
  | swm : Swimming → TrainingObj
  | run : Running → TrainingObj
  | wlk : SportsWalking → TrainingObj
deriving DecidableEq

/-- Dynamic dispatch of `show_training_info` over the constructed object. -/
def TrainingObj.show_training_info : TrainingObj → Option InfoMessage
  | .swm t => t.show_training_info
  | .run t => t.show_training_info
  | .wlk t => t.show_training_info

/-- Dispatcher `read_package(workout_type, data)`: look up the class in
`{'SWM': Swimming, 'RUN': Running, 'WLK': SportsWalking}` (a miss raises
`KeyError`, modelled `UnknownActivityType`) and construct it with `*data`
(an arity mismatch raises `TypeError`, modelled `InvalidReadingData`). -/
def read_package (workout_type : String) (data : List ℚ) :
    Except DispatchError TrainingObj :=
  if workout_type = "SWM" then
    match data with
    | [action, duration, weight, length_pool, count_pool] =>
        .ok (.swm ⟨⟨action, duration, weight⟩, length_pool, count_pool⟩)
    | _ => .error .InvalidReadingData
  else if workout_type = "RUN" then
    match data with
    | [action, duration, weight] =>
        .ok (.run ⟨⟨action, duration, weight⟩⟩)
    | _ => .error .InvalidReadingData
  else if workout_type = "WLK" then
    match data with
    | [action, duration, weight, height] =>
        .ok (.wlk ⟨⟨action, duration, weight⟩, height⟩)
    | _ => .error .InvalidReadingData
  else
    .error .UnknownActivityType

/-! ## Explicit-state readings of the methods

No method body assigns to `self`, so the explicit-state translation of each
method returns the receiver unchanged alongside the computed value. -/

def Running.get_distance_state (t : Running) : ℚ × Running :=
  (t.get_distance, t)

def Running.get_mean_speed_state (t : Running) : Option ℚ × Running :=
  (t.get_mean_speed, t)

def Running.get_spent_calories_state (t : Running) : Option ℚ × Running :=
  (t.get_spent_calories, t)

def Running.show_training_info_state (t : Running) : Option InfoMessage × Running :=
  (t.show_training_info, t)

def SportsWalking.get_distance_state (t : SportsWalking) : ℚ × SportsWalking :=
  (t.get_distance, t)

def SportsWalking.get_mean_speed_state (t : SportsWalking) :
    Option ℚ × SportsWalking :=
  (t.get_mean_speed, t)

def SportsWalking.get_spent_calories_state (t : SportsWalking) :
    Option ℚ × SportsWalking :=
  (t.get_spent_calories, t)

def SportsWalking.show_training_info_state (t : SportsWalking) :
    Option InfoMessage × SportsWalking :=
  (t.show_training_info, t)

def Swimming.get_distance_state (t : Swimming) : ℚ × Swimming :=
  (t.get_distance, t)

def Swimming.get_mean_speed_state (t : Swimming) : Option ℚ × Swimming :=
  (t.get_mean_speed, t)

def Swimming.get_spent_calories_state (t : Swimming) : Option ℚ × Swimming :=
  (t.get_spent_calories, t)

def Swimming.show_training_info_state (t : Swimming) :
    Option InfoMessage × Swimming :=
  (t.show_training_info, t)

/-! ## The formatter -/

/-- Rounding to the nearest integer with ties to even, the rounding of
Python's fixed-point float formatting. -/
def round_half_even (q : ℚ) : ℤ :=
  if q - ⌊q⌋ < 1/2 then ⌊q⌋
  else if 1/2 < q - ⌊q⌋ then ⌊q⌋ + 1
  else if 2 ∣ ⌊q⌋ then ⌊q⌋ else ⌊q⌋ + 1

/-- Decimal digit character of `k % 10`. -/
def digit_char (k : ℕ) : Char :=
  if k % 10 = 0 then '0'
  else if k % 10 = 1 then '1'
  else if k % 10 = 2 then '2'
  else if k % 10 = 3 then '3'
  else if k % 10 = 4 then '4'
  else if k % 10 = 5 then '5'
  else if k % 10 = 6 then '6'
  else if k % 10 = 7 then '7'
  else if k % 10 = 8 then '8'
  else '9'

/-- The three decimal digits of `k % 1000`, zero-padded. -/
def three_digits (k : ℕ) : String :=
  String.mk [digit_char (k / 100), digit_char (k / 10), digit_char k]

/-- Fixed-point rendering with exactly 3 fractional digits: the model of the
Python format specifier applied to a numeric field (sign, integer part in
decimal, a point, then exactly three digits, rounding the value to the
nearest thousandth with ties to even). -/
def format3 (q : ℚ) : String :=
  (if q < 0 then "-" else "") ++
    Nat.repr ((round_half_even (|q| * 1000)).toNat / 1000) ++ "." ++
    three_digits ((round_half_even (|q| * 1000)).toNat % 1000)

/-- Method `InfoMessage.get_message`: instantiate `MESSAGE_TEMPLATE` with the
five fields, the four numeric ones through the 3-decimal fixed-point format. -/
def InfoMessage.get_message (m : InfoMessage) : String :=
  "Тип тренировки: " ++ m.training_type ++ "; Длительность: " ++
    format3 m.duration ++ " ч.; Дистанция: " ++ format3 m.distance ++
    " км; Ср. скорость: " ++ format3 m.speed ++ " км/ч; Потрачено ккал: " ++
    format3 m.calories ++ "."

/-- A string consisting of some prefix, a decimal point, and then exactly
three decimal digits. -/
def has_three_decimals (s : String) : Prop :=
  ∃ a b : String, s = a ++ "." ++ b ∧ b.data.length = 3 ∧
    ∀ c ∈ b.data, c ∈ ['0', '1', '2', '3', '4', '5', '6', '7', '8', '9']


/-! ## Helper lemmas -/

theorem pydiv_of_ne (x y : ℚ) (h : y ≠ 0) : pydiv x y = some (x / y) := by
  simp [pydiv, h]

theorem pydiv_of_eq (x : ℚ) : pydiv x 0 = none := by
  simp [pydiv]

theorem pyfloordiv_of_ne (x y : ℚ) (h : y ≠ 0) :
    pyfloordiv x y = some ((⌊x / y⌋ : ℤ) : ℚ) := by
  simp [pyfloordiv, h]

theorem Training.get_mean_speed_of_ne (LEN_STEP : ℚ) (t : Training)
    (h : t.duration ≠ 0) :
    t.get_mean_speed LEN_STEP =
      some (t.action * LEN_STEP / Training.M_IN_KM / t.duration) := by
  simp [Training.get_mean_speed, Training.get_distance, pydiv, h]

theorem digit_char_mem (k : ℕ) :
    digit_char k ∈ ['0', '1', '2', '3', '4', '5', '6', '7', '8', '9'] := by
  unfold digit_char
  split_ifs <;> simp

theorem three_digits_data (k : ℕ) :
    (three_digits k).data = [digit_char (k / 100), digit_char (k / 10), digit_char k] :=
  rfl

theorem format3_has_three_decimals (q : ℚ) : has_three_decimals (format3 q) := by
  refine ⟨(if q < 0 then "-" else "") ++
      Nat.repr ((round_half_even (|q| * 1000)).toNat / 1000),
    three_digits ((round_half_even (|q| * 1000)).toNat % 1000), rfl, rfl, ?_⟩
  intro c hc
  rw [three_digits_data] at hc
  simp only [List.mem_cons, List.not_mem_nil, or_false] at hc
  rcases hc with rfl | rfl | rfl <;> exact digit_char_mem _

theorem swimming_info_training_type (t : Swimming) (m : InfoMessage)
    (h : t.show_training_info = some m) : m.training_type = "Swimming" := by
  unfold Swimming.show_training_info at h
  cases hms : t.get_mean_speed with
  | none => rw [hms] at h; simp at h
  | some v =>
    rw [hms] at h
    cases hc : t.get_spent_calories with
    | none => rw [hc] at h; simp at h
    | some w =>
      rw [hc] at h
      simp only [Option.bind_eq_bind, Option.some_bind, Option.pure_def,
        Option.some.injEq] at h
      rw [← h]

theorem running_info_training_type (t : Running) (m : InfoMessage)
    (h : t.show_training_info = some m) : m.training_type = "Running" := by
  unfold Running.show_training_info at h
  cases hms : t.get_mean_speed with
  | none => rw [hms] at h; simp at h
  | some v =>
    rw [hms] at h
    cases hc : t.get_spent_calories with
    | none => rw [hc] at h; simp at h
    | some w =>
      rw [hc] at h
      simp only [Option.bind_eq_bind, Option.some_bind, Option.pure_def,
        Option.some.injEq] at h
      rw [← h]

theorem walking_info_training_type (t : SportsWalking) (m : InfoMessage)
    (h : t.show_training_info = some m) : m.training_type = "SportsWalking" := by
  unfold SportsWalking.show_training_info at h
  cases hms : t.get_mean_speed with
  | none => rw [hms] at h; simp at h
  | some v =>
    rw [hms] at h
    cases hc : t.get_spent_calories with
    | none => rw [hc] at h; simp at h
    | some w =>
      rw [hc] at h
      simp only [Option.bind_eq_bind, Option.some_bind, Option.pure_def,
        Option.some.injEq] at h
      rw [← h]

/-! ## The claims -/

/-- C1: for every walking reading with positive duration and height, the
calories use floor division of the squared mean speed by the height:
`(0.035*weight + floor_div(speed^2, height) * 0.029 * weight) * (duration*60)`
with `speed = action * 0.65 / 1000 / duration`; at `action=9000, duration=1,
weight=75, height=180` the distance is 5.85 km, the speed 5.85 km/h and the
calories exactly 157.5. -/
theorem C1_walking_floor_division :
    (∀ t : SportsWalking, 0 < t.duration → 0 < t.height →
      t.get_spent_calories =
        some ((35/1000 * t.weight +
            ((⌊(t.action * (65/100) / 1000 / t.duration) ^ 2 / t.height⌋ : ℤ) : ℚ)
              * (29/1000) * t.weight) * (t.duration * 60))) ∧
    (⟨⟨9000, 1, 75⟩, 180⟩ : SportsWalking).get_distance = 585/100 ∧
    (⟨⟨9000, 1, 75⟩, 180⟩ : SportsWalking).get_mean_speed = some (585/100) ∧
    (⟨⟨9000, 1, 75⟩, 180⟩ : SportsWalking).get_spent_calories = some (1575/10) := by
  refine ⟨?_, ?_, ?_, ?_⟩
  · intro t hd hh
    simp only [SportsWalking.get_spent_calories, SportsWalking.get_mean_speed,
      Training.get_mean_speed, Training.get_distance, pydiv, pyfloordiv,
      Training.LEN_STEP, Training.M_IN_KM, Training.MIN_IN_HOUR,
      SportsWalking.coeff_1, SportsWalking.coeff_2, SportsWalking.speed_pow]
    rw [if_neg hd.ne']
    simp only [Option.bind_eq_bind, Option.some_bind]
    rw [if_neg hh.ne']
    simp only [Option.bind_eq_bind, Option.some_bind]
    congr 1
    ring
  · simp [SportsWalking.get_distance, Training.get_distance, Training.LEN_STEP,
      Training.M_IN_KM]
    norm_num
  · simp [SportsWalking.get_mean_speed, Training.get_mean_speed,
      Training.get_distance, pydiv, Training.LEN_STEP, Training.M_IN_KM]
    norm_num
  · simp [SportsWalking.get_spent_calories, SportsWalking.get_mean_speed,
      Training.get_mean_speed, Training.get_distance, pydiv, pyfloordiv,
      Training.LEN_STEP, Training.M_IN_KM, Training.MIN_IN_HOUR,
      SportsWalking.coeff_1, SportsWalking.coeff_2, SportsWalking.speed_pow]
    norm_num

theorem C1_witness :
    (0:ℚ) < 1 ∧ (0:ℚ) < 180 ∧
    (⟨⟨9000, 1, 75⟩, 180⟩ : SportsWalking).get_spent_calories =
      some ((35/1000 * 75 +
          ((⌊((9000 : ℚ) * (65/100) / 1000 / 1) ^ 2 / 180⌋ : ℤ) : ℚ)
            * (29/1000) * 75) * (1 * 60)) :=
  ⟨by norm_num, by norm_num,
    C1_walking_floor_division.1 ⟨⟨9000, 1, 75⟩, 180⟩ (by norm_num) (by norm_num)⟩

/-- C2 counterexample: at `action=15000, duration=1, weight=75` the running
calories are exactly 699.75, not 700.65 as the claim states. -/
theorem C2_running_value_counterexample :
    Running.get_spent_calories ⟨⟨15000, 1, 75⟩⟩ = some (69975/100) ∧
    Running.get_spent_calories ⟨⟨15000, 1, 75⟩⟩ ≠ some (70065/100) := by
  have h : Running.get_spent_calories ⟨⟨15000, 1, 75⟩⟩ = some (69975/100) := by
    simp [Running.get_spent_calories, Running.get_mean_speed, Training.get_mean_speed,
      Training.get_distance, pydiv, Training.LEN_STEP, Training.M_IN_KM,
      Training.MIN_IN_HOUR, Running.coeff_cal_1, Running.coeff_cal_2]
    norm_num
  refine ⟨h, ?_⟩
  rw [h]
  intro hc
  have : (69975/100 : ℚ) = 70065/100 := by exact Option.some.inj hc
  norm_num at this

/-- C2 amended: for every running reading with positive duration,
`calories = (18 * speed - 20) * weight / 1000 * (duration * 60)` with
`speed = action * 0.65 / 1000 / duration`; at `action=15000, duration=1,
weight=75` the distance is 9.75 km, the speed 9.75 km/h and the calories
exactly 699.75. -/
theorem C2_running_calories :
    (∀ t : Running, 0 < t.duration →
      t.get_spent_calories =
        some ((18 * (t.action * (65/100) / 1000 / t.duration) - 20)
          * t.weight / 1000 * (t.duration * 60))) ∧
    (⟨⟨15000, 1, 75⟩⟩ : Running).get_distance = 975/100 ∧
    (⟨⟨15000, 1, 75⟩⟩ : Running).get_mean_speed = some (975/100) ∧
    (⟨⟨15000, 1, 75⟩⟩ : Running).get_spent_calories = some (69975/100) := by
  refine ⟨?_, ?_, ?_, ?_⟩
  · intro t hd
    simp only [Running.get_spent_calories, Running.get_mean_speed,
      Training.get_mean_speed, Training.get_distance, pydiv,
      Training.LEN_STEP, Training.M_IN_KM, Training.MIN_IN_HOUR,
      Running.coeff_cal_1, Running.coeff_cal_2]
    rw [if_neg hd.ne']
    simp only [Option.bind_eq_bind, Option.some_bind]
    exact congrArg some (by ring)
  · simp [Running.get_distance, Training.get_distance, Training.LEN_STEP,
      Training.M_IN_KM]
    norm_num
  · simp [Running.get_mean_speed, Training.get_mean_speed, Training.get_distance,
      pydiv, Training.LEN_STEP, Training.M_IN_KM]
    norm_num
  · simp [Running.get_spent_calories, Running.get_mean_speed, Training.get_mean_speed,
      Training.get_distance, pydiv, Training.LEN_STEP, Training.M_IN_KM,
      Training.MIN_IN_HOUR, Running.coeff_cal_1, Running.coeff_cal_2]
    norm_num

theorem C2_witness :
    (0:ℚ) < 1 ∧
    (⟨⟨15000, 1, 75⟩⟩ : Running).get_spent_calories =
      some ((18 * ((15000 : ℚ) * (65/100) / 1000 / 1) - 20) * 75 / 1000 * (1 * 60)) :=
  ⟨by norm_num, C2_running_calories.1 ⟨⟨15000, 1, 75⟩⟩ (by norm_num)⟩

/-- C3: for every swimming reading with positive duration the mean speed is
`length_pool * count_pool / 1000 / duration` while the distance is
`action * 1.38 / 1000` (the override changes only the speed); at the sample
reading the speed is 1.0 while distance / duration would be 0.9936. -/
theorem C3_swimming_speed_distance :
    (∀ t : Swimming, 0 < t.duration →
      t.get_mean_speed = some (t.length_pool * t.count_pool / 1000 / t.duration) ∧
      t.get_distance = t.action * (138/100) / 1000) ∧
    (⟨⟨720, 1, 80⟩, 25, 40⟩ : Swimming).get_mean_speed = some 1 ∧
    (⟨⟨720, 1, 80⟩, 25, 40⟩ : Swimming).get_distance = 621/625 ∧
    some ((⟨⟨720, 1, 80⟩, 25, 40⟩ : Swimming).get_distance / 1)
      ≠ (⟨⟨720, 1, 80⟩, 25, 40⟩ : Swimming).get_mean_speed := by
  refine ⟨?_, ?_, ?_, ?_⟩
  · intro t hd
    constructor
    · simp only [Swimming.get_mean_speed, pydiv, Training.M_IN_KM]
      rw [if_neg hd.ne']
    · simp only [Swimming.get_distance, Training.get_distance, Swimming.LEN_STEP,
        Training.M_IN_KM]
  · simp [Swimming.get_mean_speed, pydiv, Training.M_IN_KM]
    norm_num
  · simp [Swimming.get_distance, Training.get_distance, Swimming.LEN_STEP,
      Training.M_IN_KM]
    norm_num
  · simp [Swimming.get_mean_speed, Swimming.get_distance, Training.get_distance,
      Swimming.LEN_STEP, pydiv, Training.M_IN_KM]
    norm_num

theorem C3_witness :
    (0:ℚ) < 1 ∧
    (⟨⟨720, 1, 80⟩, 25, 40⟩ : Swimming).get_mean_speed =
      some ((25 : ℚ) * 40 / 1000 / 1) ∧
    (⟨⟨720, 1, 80⟩, 25, 40⟩ : Swimming).get_distance = (720 : ℚ) * (138/100) / 1000 :=
  ⟨by norm_num, (C3_swimming_speed_distance.1 ⟨⟨720, 1, 80⟩, 25, 40⟩ (by norm_num)).1,
    (C3_swimming_speed_distance.1 ⟨⟨720, 1, 80⟩, 25, 40⟩ (by norm_num)).2⟩

/-- C4: for every swimming reading with positive duration,
`calories = (mean_speed + 1.1) * 2 * weight` with the swimming-specific mean
speed; at `action=720, duration=1, weight=80, pool_length=25, pool_count=40`
the speed is exactly 1.0 and the calories exactly 336.0. -/
theorem C4_swimming_calories :
    (∀ t : Swimming, 0 < t.duration →
      t.get_spent_calories =
        some ((t.length_pool * t.count_pool / 1000 / t.duration + 11/10)
          * 2 * t.weight)) ∧
    (⟨⟨720, 1, 80⟩, 25, 40⟩ : Swimming).get_mean_speed = some 1 ∧
    (⟨⟨720, 1, 80⟩, 25, 40⟩ : Swimming).get_spent_calories = some 336 := by
  refine ⟨?_, ?_, ?_⟩
  · intro t hd
    simp only [Swimming.get_spent_calories, Swimming.get_mean_speed, pydiv,
      Training.M_IN_KM, Swimming.ADD_COEFF, Swimming.SPEED_COEFF]
    rw [if_neg hd.ne']
    simp only [Option.bind_eq_bind, Option.some_bind]
    exact congrArg some (by ring)
  · simp [Swimming.get_mean_speed, pydiv, Training.M_IN_KM]
    norm_num
  · simp [Swimming.get_spent_calories, Swimming.get_mean_speed, pydiv,
      Training.M_IN_KM, Swimming.ADD_COEFF, Swimming.SPEED_COEFF]
    norm_num

theorem C4_witness :
    (0:ℚ) < 1 ∧
    (⟨⟨720, 1, 80⟩, 25, 40⟩ : Swimming).get_spent_calories =
      some (((25 : ℚ) * 40 / 1000 / 1 + 11/10) * 2 * 80) :=
  ⟨by norm_num, C4_swimming_calories.1 ⟨⟨720, 1, 80⟩, 25, 40⟩ (by norm_num)⟩

/-- C5: for every activity code other than "SWM", "RUN", "WLK", the dispatcher
fails with `UnknownActivityType` and never returns a constructed object. -/
theorem C5_unknown_activity_type :
    ∀ (workout_type : String) (data : List ℚ),
      workout_type ≠ "SWM" → workout_type ≠ "RUN" → workout_type ≠ "WLK" →
      read_package workout_type data = .error .UnknownActivityType ∧
      ∀ t : TrainingObj, read_package workout_type data ≠ .ok t := by
  intro workout_type data h1 h2 h3
  have he : read_package workout_type data = .error .UnknownActivityType := by
    simp only [read_package]
    rw [if_neg h1, if_neg h2, if_neg h3]
  exact ⟨he, fun t hc => by rw [he] at hc; exact Except.noConfusion hc⟩

theorem C5_witness :
    read_package "JOG" [1, 2, 3] = .error .UnknownActivityType ∧
    ∀ t : TrainingObj, read_package "JOG" [1, 2, 3] ≠ .ok t :=
  C5_unknown_activity_type "JOG" [1, 2, 3]
    (by decide) (by decide) (by decide)

/-- C6: for each known code, a raw value list whose length differs from the
variant's arity (RUN: 3, WLK: 4, SWM: 5) makes the dispatcher fail with
`InvalidReadingData`, never returning a constructed object. -/
theorem C6_arity_mismatch :
    ∀ data : List ℚ,
      (data.length ≠ 3 → read_package "RUN" data = .error .InvalidReadingData ∧
        ∀ t : TrainingObj, read_package "RUN" data ≠ .ok t) ∧
      (data.length ≠ 4 → read_package "WLK" data = .error .InvalidReadingData ∧
        ∀ t : TrainingObj, read_package "WLK" data ≠ .ok t) ∧
      (data.length ≠ 5 → read_package "SWM" data = .error .InvalidReadingData ∧
        ∀ t : TrainingObj, read_package "SWM" data ≠ .ok t) := by
  intro data
  refine ⟨?_, ?_, ?_⟩ <;> intro h <;>
    rcases data with _ | ⟨a, _ | ⟨b, _ | ⟨c, _ | ⟨d, _ | ⟨e, _ | ⟨f, rest⟩⟩⟩⟩⟩⟩ <;>
    first
      | exact absurd rfl h
      | exact ⟨rfl, fun t hc => Except.noConfusion hc⟩

theorem C6_witness :
    read_package "RUN" [15000, 1, 75, 180] = .error .InvalidReadingData ∧
    ∀ t : TrainingObj, read_package "RUN" [15000, 1, 75, 180] ≠ .ok t :=
  (C6_arity_mismatch [15000, 1, 75, 180]).1 (by decide)

/-- C7 counterexample: a reading with negative duration is not rejected: the
running calorie computation at `action=15000, duration=-1, weight=75` returns
the value 879.75 instead of failing with a validation error. -/
theorem C7_negative_duration_counterexample :
    Running.get_spent_calories ⟨⟨15000, -1, 75⟩⟩ = some (87975/100) := by
  simp [Running.get_spent_calories, Running.get_mean_speed, Training.get_mean_speed,
    Training.get_distance, pydiv, Training.LEN_STEP, Training.M_IN_KM,
    Training.MIN_IN_HOUR, Running.coeff_cal_1, Running.coeff_cal_2]
  norm_num

/-- C7 amended: a reading with zero duration makes the speed computation (a
division by the duration) fail with a division-by-zero error, producing no
value at all (hence no Infinity/NaN); a negative duration is not rejected and
yields a finite value. -/
theorem C7_zero_duration_division_error :
    (∀ t : Running, t.duration = 0 →
      t.get_mean_speed = none ∧ t.get_spent_calories = none) ∧
    (∀ t : SportsWalking, t.duration = 0 →
      t.get_mean_speed = none ∧ t.get_spent_calories = none) ∧
    (∀ t : Swimming, t.duration = 0 →
      t.get_mean_speed = none ∧ t.get_spent_calories = none) ∧
    (∀ t : Running, t.duration < 0 → (t.get_spent_calories).isSome = true) := by
  refine ⟨?_, ?_, ?_, ?_⟩
  · intro t h
    have hs : t.get_mean_speed = none := by
      simp [Running.get_mean_speed, Training.get_mean_speed, pydiv, h]
    exact ⟨hs, by simp [Running.get_spent_calories, hs]⟩
  · intro t h
    have hs : t.get_mean_speed = none := by
      simp [SportsWalking.get_mean_speed, Training.get_mean_speed, pydiv, h]
    exact ⟨hs, by simp [SportsWalking.get_spent_calories, hs]⟩
  · intro t h
    have hs : t.get_mean_speed = none := by
      simp [Swimming.get_mean_speed, pydiv, h]
    exact ⟨hs, by simp [Swimming.get_spent_calories, hs]⟩
  · intro t h
    have hs : t.get_mean_speed =
        some (t.action * Training.LEN_STEP / Training.M_IN_KM / t.duration) :=
      Training.get_mean_speed_of_ne Training.LEN_STEP t.toTraining h.ne
    simp [Running.get_spent_calories, hs]

theorem C7_witness :
    (Running.get_mean_speed ⟨⟨15000, 0, 75⟩⟩ = none ∧
      Running.get_spent_calories ⟨⟨15000, 0, 75⟩⟩ = none) ∧
    (Running.get_spent_calories ⟨⟨15000, -2, 75⟩⟩).isSome = true :=
  ⟨C7_zero_duration_division_error.1 ⟨⟨15000, 0, 75⟩⟩ rfl,
    C7_zero_duration_division_error.2.2.2 ⟨⟨15000, -2, 75⟩⟩ (by norm_num)⟩

/-- C8: the formatted message is the fixed template with the fields in the
order activity label, duration, distance, mean speed, calories; its 4 numeric
fields are each rendered by the 3-decimal fixed-point format (nearest
thousandth) and so each carries exactly 3 decimal digits. -/
theorem C8_message_template :
    ∀ m : InfoMessage, ∃ f1 f2 f3 f4 : String,
      m.get_message = "Тип тренировки: " ++ m.training_type ++
        "; Длительность: " ++ f1 ++ " ч.; Дистанция: " ++ f2 ++
        " км; Ср. скорость: " ++ f3 ++ " км/ч; Потрачено ккал: " ++ f4 ++ "." ∧
      f1 = format3 m.duration ∧ f2 = format3 m.distance ∧
      f3 = format3 m.speed ∧ f4 = format3 m.calories ∧
      has_three_decimals f1 ∧ has_three_decimals f2 ∧
      has_three_decimals f3 ∧ has_three_decimals f4 := by
  intro m
  exact ⟨_, _, _, _, rfl, rfl, rfl, rfl, rfl,
    format3_has_three_decimals _, format3_has_three_decimals _,
    format3_has_three_decimals _, format3_has_three_decimals _⟩

/-- C9: the four computations leave every field of the record unchanged (the
explicit-state reading of each method returns the record as it was), and on
records with equal fields each computation returns equal results: the
computations are pure and deterministic. -/
theorem C9_purity :
    (∀ t : Running,
      (Running.get_distance_state t).2 = t ∧
      (Running.get_mean_speed_state t).2 = t ∧
      (Running.get_spent_calories_state t).2 = t ∧
      (Running.show_training_info_state t).2 = t) ∧
    (∀ t : SportsWalking,
      (SportsWalking.get_distance_state t).2 = t ∧
      (SportsWalking.get_mean_speed_state t).2 = t ∧
      (SportsWalking.get_spent_calories_state t).2 = t ∧
      (SportsWalking.show_training_info_state t).2 = t) ∧
    (∀ t : Swimming,
      (Swimming.get_distance_state t).2 = t ∧
      (Swimming.get_mean_speed_state t).2 = t ∧
      (Swimming.get_spent_calories_state t).2 = t ∧
      (Swimming.show_training_info_state t).2 = t) ∧
    (∀ t u : Running, t.action = u.action → t.duration = u.duration →
      t.weight = u.weight →
      t.get_distance = u.get_distance ∧ t.get_mean_speed = u.get_mean_speed ∧
      t.get_spent_calories = u.get_spent_calories ∧
      t.show_training_info = u.show_training_info) ∧
    (∀ t u : SportsWalking, t.action = u.action → t.duration = u.duration →
      t.weight = u.weight → t.height = u.height →
      t.get_distance = u.get_distance ∧ t.get_mean_speed = u.get_mean_speed ∧
      t.get_spent_calories = u.get_spent_calories ∧
      t.show_training_info = u.show_training_info) ∧
    (∀ t u : Swimming, t.action = u.action → t.duration = u.duration →
      t.weight = u.weight → t.length_pool = u.length_pool →
      t.count_pool = u.count_pool →
      t.get_distance = u.get_distance ∧ t.get_mean_speed = u.get_mean_speed ∧
      t.get_spent_calories = u.get_spent_calories ∧
      t.show_training_info = u.show_training_info) := by
  refine ⟨fun t => ⟨rfl, rfl, rfl, rfl⟩, fun t => ⟨rfl, rfl, rfl, rfl⟩,
    fun t => ⟨rfl, rfl, rfl, rfl⟩, ?_, ?_, ?_⟩
  · rintro ⟨⟨a, d, w⟩⟩ ⟨⟨a1, d1, w1⟩⟩ h1 h2 h3
    obtain rfl : a = a1 := h1
    obtain rfl : d = d1 := h2
    obtain rfl : w = w1 := h3
    exact ⟨rfl, rfl, rfl, rfl⟩
  · rintro ⟨⟨a, d, w⟩, ht⟩ ⟨⟨a1, d1, w1⟩, ht1⟩ h1 h2 h3 h4
    obtain rfl : a = a1 := h1
    obtain rfl : d = d1 := h2
    obtain rfl : w = w1 := h3
    obtain rfl : ht = ht1 := h4
    exact ⟨rfl, rfl, rfl, rfl⟩
  · rintro ⟨⟨a, d, w⟩, lp, cp⟩ ⟨⟨a1, d1, w1⟩, lp1, cp1⟩ h1 h2 h3 h4 h5
    obtain rfl : a = a1 := h1
    obtain rfl : d = d1 := h2
    obtain rfl : w = w1 := h3
    obtain rfl : lp = lp1 := h4
    obtain rfl : cp = cp1 := h5
    exact ⟨rfl, rfl, rfl, rfl⟩

theorem C9_witness :
    (Running.show_training_info_state ⟨⟨15000, 1, 75⟩⟩).2 = ⟨⟨15000, 1, 75⟩⟩ ∧
    Running.show_training_info ⟨⟨15000, 1, 75⟩⟩ =
      Running.show_training_info ⟨⟨15000, 1, 75⟩⟩ :=
  ⟨(C9_purity.1 ⟨⟨15000, 1, 75⟩⟩).2.2.2,
    (C9_purity.2.2.2.1 ⟨⟨15000, 1, 75⟩⟩ ⟨⟨15000, 1, 75⟩⟩ rfl rfl rfl).2.2.2⟩

/-- C10: a successfully dispatched reading carries the variant's class name as
the activity-type label of the result record: code "SWM" yields "Swimming",
"RUN" yields "Running" and "WLK" yields "SportsWalking". -/
theorem C10_dispatch_label :
    (∀ (data : List ℚ) (t : TrainingObj) (m : InfoMessage),
      read_package "SWM" data = .ok t → t.show_training_info = some m →
      m.training_type = "Swimming") ∧
    (∀ (data : List ℚ) (t : TrainingObj) (m : InfoMessage),
      read_package "RUN" data = .ok t → t.show_training_info = some m →
      m.training_type = "Running") ∧
    (∀ (data : List ℚ) (t : TrainingObj) (m : InfoMessage),
      read_package "WLK" data = .ok t → t.show_training_info = some m →
      m.training_type = "SportsWalking") := by
  refine ⟨?_, ?_, ?_⟩ <;> intro data t m hr hm <;>
    rcases data with _ | ⟨a, _ | ⟨b, _ | ⟨c, _ | ⟨d, _ | ⟨e, _ | ⟨f, rest⟩⟩⟩⟩⟩⟩ <;>
    first
      | exact Except.noConfusion hr
      | (obtain rfl : TrainingObj.swm ⟨⟨a, b, c⟩, d, e⟩ = t := Except.ok.inj hr
         exact swimming_info_training_type _ m hm)
      | (obtain rfl : TrainingObj.run ⟨⟨a, b, c⟩⟩ = t := Except.ok.inj hr
         exact running_info_training_type _ m hm)
      | (obtain rfl : TrainingObj.wlk ⟨⟨a, b, c⟩, d⟩ = t := Except.ok.inj hr
         exact walking_info_training_type _ m hm)

theorem C10_witness :
    ((⟨"Swimming", 1, 621/625, 1, 336⟩ : InfoMessage).training_type = "Swimming") := by
  have h : Swimming.show_training_info ⟨⟨720, 1, 80⟩, 25, 40⟩ =
      some ⟨"Swimming", 1, 621/625, 1, 336⟩ := by
    simp [Swimming.show_training_info, Swimming.get_mean_speed,
      Swimming.get_spent_calories, Swimming.get_distance, Training.get_distance,
      Swimming.LEN_STEP, pydiv, Training.M_IN_KM, Swimming.ADD_COEFF,
      Swimming.SPEED_COEFF]
    norm_num
  exact C10_dispatch_label.1 [720, 1, 80, 25, 40]
    (.swm ⟨⟨720, 1, 80⟩, 25, 40⟩) ⟨"Swimming", 1, 621/625, 1, 336⟩ rfl h
